import Mathlib

/-!
# go-directsound: a shallow embedding of `buffer.go`, `notify.go` and `dsound.go`

The package is a thin Go binding over the DirectSound COM interfaces.  Every exported
operation marshals its arguments, performs one call through a vtable entry of the device and
turns a non-zero status into a wrapped `ErrDirectSound`.

Embedding conventions:

* the world outside the Go code (device, driver, process memory) is a state `σ` threaded
  through every call; a vtable entry is a function on `σ` returning the new world, the status
  found in the result register and the values left in the out-parameters;
* Go's `int` and `uintptr` are 32 or 64 bits wide (`WordSize`); conversions are explicit;
* a Go return tuple is a Lean tuple, `nil` is `none`; a run-time panic is `Except.error`.
-/

namespace GoDirectSound

/-! ## Machine integers -/

/-- Width of Go's `int` and `uintptr` on the target architecture. -/
inductive WordSize where
  | w32
  | w64
deriving DecidableEq

/-- Number of bits of `int` / `uintptr`. -/
def WordSize.bits : WordSize → Nat
  | .w32 => 32
  | .w64 => 64

/-- Number of distinct `uintptr` values, `2 ^ bits`. -/
def WordSize.modulus (a : WordSize) : Nat := 2 ^ a.bits

/-- The conversion `uintptr(x)` of a signed integer: reduction modulo `2 ^ bits`. -/
def toUintptr (a : WordSize) (x : Int) : Nat := (x % (a.modulus : Int)).toNat

/-- The value of type `int` with the same low `bits` bits as `x` (two's complement). -/
def toInt (a : WordSize) (x : Int) : Int :=
  (x + (a.modulus / 2 : Nat)) % (a.modulus : Int) - (a.modulus / 2 : Nat)

/-- A value of Go's type `int`: it lies in the signed range of the word size. -/
def IsInt (a : WordSize) (x : Int) : Prop :=
  -((a.modulus / 2 : Nat) : Int) ≤ x ∧ x < ((a.modulus / 2 : Nat) : Int)

instance (a : WordSize) (x : Int) : Decidable (IsInt a x) := by
  unfold IsInt; infer_instance

/-- The conversion `uint16(x)`. -/
def toUint16 (x : Int) : Nat := (x % 65536).toNat

/-- The conversion `uint32(x)`. -/
def toUint32 (x : Int) : Nat := (x % 4294967296).toNat

/-- Go's `x * y` on `int`: the product wraps around. -/
def intMul (a : WordSize) (x y : Int) : Int := toInt a (x * y)

/-- Go's `x / y` on `int` for a non-zero constant divisor other than `-1`:
the quotient is truncated toward zero. -/
def intQuo (x y : Int) : Int := Int.tdiv x y

/-- Go's `x * y` on `uint32`. -/
def uint32Mul (x y : Nat) : Nat := (x * y) % 4294967296

/-! ## Errors -/

/-- Go error values as built by this package: `errors.New` makes an `errorString`,
`fmt.Errorf` with a `%w` verb makes a `wrapError` that unwraps to its operand. -/
inductive GoError where
  | errorString (s : String)
  | wrapError (msg : String) (err : GoError)
deriving DecidableEq

/-- The method `Error()`. -/
def GoError.Error : GoError → String
  | .errorString s => s
  | .wrapError msg _ => msg

/-- The method `Unwrap()`, `none` when the error wraps nothing. -/
def GoError.Unwrap : GoError → Option GoError
  | .errorString _ => none
  | .wrapError _ err => some err

/-- The function `errors.Is(err, target)`: walks the wrap chain of `err` looking for `target`. -/
def errorsIs : GoError → GoError → Bool
  | .errorString s, target => decide (GoError.errorString s = target)
  | .wrapError msg err, target =>
    if GoError.wrapError msg err = target then true else errorsIs err target

/-- The verb `%0.8x` applied to a `uintptr`: lower-case hexadecimal, at least eight digits. -/
def fmtHex08 (n : Nat) : String :=
  let digits := Nat.toDigits 16 n
  String.mk (List.replicate (8 - digits.length) '0' ++ digits)

/-- The call `fmt.Errorf("%w" + rest, err, ...)`, `rest` being the formatted remainder. -/
def Errorf (err : GoError) (rest : String) : GoError :=
  .wrapError (err.Error ++ rest) err

/-- The sentinel `ErrDirectSound` of `dsound.go`. -/
def ErrDirectSound : GoError := .errorString "directsound error"

/-- The package variable `errDirectSound` of `dsound.go`. -/
def errDirectSound : GoError := Errorf ErrDirectSound ": in DirectSound"

/-- The package variable `errDirectSoundBuffer` of `buffer.go`. -/
def errDirectSoundBuffer : GoError := Errorf ErrDirectSound ": DirectSoundBuffer"

/-- The package variable `errDirectSoundNotify` of `notify.go`. -/
def errDirectSoundNotify : GoError := Errorf ErrDirectSound ": in DirectSoundNotify"

/-- Run-time panics the code can raise. -/
inductive GoPanic where
  | indexOutOfRange (index length : Nat)
  | nilDereference
deriving DecidableEq

/-! ## Data passed across the device boundary -/

/-- A `syscall.GUID`. -/
structure GUID where
  Data1 : Nat
  Data2 : Nat
  Data3 : Nat
  Data4 : List Nat
deriving DecidableEq

/-- The type `winmm.WAVEFORMATEX` (declared in the imported package `go-winmm`). -/
structure WAVEFORMATEX where
  WFormatTag : Nat
  NChannels : Nat
  NSamplesPerSec : Nat
  NAvgBytesPerSec : Nat
  NBlockAlign : Nat
  WBitsPerSample : Nat
  CbSize : Nat
deriving DecidableEq

/-- The struct `dsBufferDesc` of `dsound.go`. -/
structure dsBufferDesc where
  Size : Nat
  Flags : Nat
  BufferBytes : Nat
  Reserved : Nat
  WfxFormat : Option WAVEFORMATEX
deriving DecidableEq

/-- The struct `PositionNotify` of `notify.go`. -/
structure PositionNotify where
  Offset : Nat
  EventNotify : Nat
deriving DecidableEq

/-- A `reflect.SliceHeader`: the run-time representation of a `[]byte`. -/
structure SliceHeader where
  Data : Nat
  Len : Int
  Cap : Int
deriving DecidableEq

/-- A slice of `PositionNotify`: the address of its backing array and its elements. -/
structure EventSlice where
  Data : Nat
  elems : List PositionNotify
deriving DecidableEq

/-- Constants and sizes the three source files use but do not declare. -/
structure Consts where
  DSBPLAY_LOOPING : Nat
  DSBCAPS_PRIMARYBUFFER : Nat
  DSBCAPS_GETCURRENTPOSITION2 : Nat
  DSBCAPS_GLOBALFOCUS : Nat
  DSBCAPS_CTRLALL : Nat
  DSSCL_PRIORITY : Nat
  WAVE_FORMAT_PCM : Nat
  sizeofBufferDesc : Nat
  sizeofWaveFormat : Nat

/-- What the device leaves behind after its `Lock` entry ran: the status and the contents
of the four out-parameters. -/
structure LockReply where
  retVal : Nat
  audioPtr1 : Nat
  audioBytes1 : Nat
  audioPtr2 : Nat
  audioBytes2 : Nat
deriving DecidableEq

/-! ## Vtables and interface objects -/

/-- The entries of `notifyVtbl` that `notify.go` calls.  The first argument is `this`. -/
structure notifyVtbl (σ : Type) where
  AddRef : Nat → σ → σ × Nat
  Release : Nat → σ → σ × Nat
  SetNotificationPositions : Nat → Nat → Nat → List PositionNotify → σ → σ × Nat

/-- The struct `Notify`: an object at address `self` with its vtable. -/
structure Notify (σ : Type) where
  self : Nat
  vtbl : notifyVtbl σ

/-- The entries of `directSoundBufferVtbl` that `buffer.go` calls. -/
structure directSoundBufferVtbl (σ : Type) where
  QueryInterface : Nat → GUID → σ → σ × Nat × Option (Notify σ)
  AddRef : Nat → σ → σ × Nat
  Release : Nat → σ → σ × Nat
  GetCurrentPosition : Nat → σ → σ × Nat × Nat × Nat
  GetStatus : Nat → σ → σ × Nat × Nat
  Lock : Nat → Nat → Nat → Nat → σ → σ × LockReply
  Play : Nat → Nat → Nat → Nat → σ → σ × Nat
  SetFormat : Nat → WAVEFORMATEX → σ → σ × Nat
  Unlock : Nat → Nat → Nat → Nat → Nat → σ → σ × Nat

/-- The struct `Buffer`. -/
structure Buffer (σ : Type) where
  self : Nat
  vtbl : directSoundBufferVtbl σ

/-- The entries of `directSoundVtbl` that `dsound.go` calls. -/
structure directSoundVtbl (σ : Type) where
  AddRef : Nat → σ → σ × Nat
  Release : Nat → σ → σ × Nat
  CreateSoundBuffer : Nat → dsBufferDesc → σ → σ × Nat × Option (Buffer σ)
  SetCooperativeLevel : Nat → Nat → Nat → σ → σ × Nat

/-- The struct `DirectSound`. -/
structure DirectSound (σ : Type) where
  self : Nat
  vtbl : directSoundVtbl σ

/-- The two host procedures `createDevice` calls: `DirectSoundCreate8` of `dsound.dll`
and `win32.GetDesktopWindow`. -/
structure Host (σ : Type) where
  DirectSoundCreate8 : Option GUID → σ → σ × Nat × Option (DirectSound σ)
  GetDesktopWindow : σ → Nat

/-! ## `buffer.go` -/

/-- The method `Buffer.AddRef`. -/
def Buffer.AddRef {σ : Type} (b : Buffer σ) (s : σ) : σ × Option GoError :=
  let r := b.vtbl.AddRef b.self s
  if r.2 != 0 then
    (r.1, some (Errorf errDirectSoundBuffer (": AddRef returned " ++ fmtHex08 r.2)))
  else (r.1, none)

/-- The method `Buffer.Release`. -/
def Buffer.Release {σ : Type} (b : Buffer σ) (s : σ) : σ × Option GoError :=
  let r := b.vtbl.Release b.self s
  if r.2 != 0 then
    (r.1, some (Errorf errDirectSoundBuffer (": Release returned " ++ fmtHex08 r.2)))
  else (r.1, none)

/-- The GUID of `IDirectSoundNotify` built in `Buffer.GetNotify`. -/
def guidIDirectSoundNotify : GUID :=
  ⟨0xb0210783, 0x89cd, 0x11d0, [0xaf, 0x8, 0x0, 0xa0, 0xc9, 0x25, 0xcd, 0x16]⟩

/-- The method `Buffer.GetNotify`. -/
def Buffer.GetNotify {σ : Type} (b : Buffer σ) (s : σ) :
    σ × Option (Notify σ) × Option GoError :=
  let r := b.vtbl.QueryInterface b.self guidIDirectSoundNotify s
  if r.2.1 != 0 then
    (r.1, none, some (Errorf errDirectSoundBuffer (": QueryInterface returned " ++ fmtHex08 r.2.1)))
  else (r.1, r.2.2, none)

/-- The method `Buffer.setFormat`. -/
def Buffer.setFormat {σ : Type} (b : Buffer σ) (wfx : WAVEFORMATEX) (s : σ) :
    σ × Option GoError :=
  let r := b.vtbl.SetFormat b.self wfx s
  if r.2 != 0 then
    (r.1, some (Errorf errDirectSoundBuffer (": SetFormat returned " ++ fmtHex08 r.2)))
  else (r.1, none)

/-- The `uint32` variable `flags` of `Buffer.Play`: zero, with `DSBPLAY_LOOPING` or-ed in
when `looping` is set. -/
def playFlags (k : Consts) (looping : Bool) : Nat :=
  if looping then (0 ||| k.DSBPLAY_LOOPING) % 4294967296 else 0

/-- The method `Buffer.Play`. -/
def Buffer.Play {σ : Type} (k : Consts) (b : Buffer σ) (looping : Bool) (s : σ) :
    σ × Option GoError :=
  let flags : Nat := playFlags k looping
  let r := b.vtbl.Play b.self 0 0 flags s
  if r.2 != 0 then
    (r.1, some (Errorf errDirectSoundBuffer (": Play returned " ++ fmtHex08 r.2)))
  else (r.1, none)

/-- The method `Buffer.GetCurrentPosition`; the device stores two 32-bit cursors. -/
def Buffer.GetCurrentPosition {σ : Type} (b : Buffer σ) (s : σ) :
    σ × Nat × Nat × Option GoError :=
  let r := b.vtbl.GetCurrentPosition b.self s
  let currentPlayCursor := r.2.2.1 % 4294967296
  let currentWriteCursor := r.2.2.2 % 4294967296
  if r.2.1 != 0 then
    (r.1, 0, 0,
      some (Errorf errDirectSoundBuffer (": GetCurrentPosition returned " ++ fmtHex08 r.2.1)))
  else (r.1, currentPlayCursor, currentWriteCursor, none)

/-- The method `Buffer.GetStatus`; `DSBSTATUS` is a 32-bit value. -/
def Buffer.GetStatus {σ : Type} (b : Buffer σ) (s : σ) : σ × Nat × Option GoError :=
  let r := b.vtbl.GetStatus b.self s
  let status := r.2.2 % 4294967296
  if r.2.1 != 0 then
    (r.1, 0, some (Errorf errDirectSoundBuffer (": GetStatus returned " ++ fmtHex08 r.2.1)))
  else (r.1, status, none)

/-- The header of a segment after the device stored a pointer in `Data` and a 32-bit
length in the low half of the zeroed `Len`. -/
def storedHeader (a : WordSize) (audioPtr audioBytes : Nat) : SliceHeader :=
  ⟨audioPtr % a.modulus, toInt a ((audioBytes % 4294967296 : Nat) : Int), 0⟩

/-- The method `Buffer.Lock`.  `segments` starts as two zeroed headers; the device fills
`Data` and `Len` of both; on success each `Cap` is set to its `Len`. -/
def Buffer.Lock {σ : Type} (a : WordSize) (b : Buffer σ) (offset numBytes : Int) (s : σ) :
    σ × Option (List SliceHeader) × Option GoError :=
  let flags : Nat := 0
  let r := b.vtbl.Lock b.self (toUintptr a offset) (toUintptr a numBytes) flags s
  let segs : List SliceHeader :=
    [storedHeader a r.2.audioPtr1 r.2.audioBytes1, storedHeader a r.2.audioPtr2 r.2.audioBytes2]
  if r.2.retVal != 0 then
    (r.1, none, some (Errorf errDirectSoundBuffer (": Lock returned " ++ fmtHex08 r.2.retVal)))
  else
    (r.1, some (segs.map (fun h => ⟨h.Data, h.Len, h.Len⟩)), none)

/-- The method `Buffer.Unlock`.  Taking the address of `segments[0]` and `segments[1]`
panics when the slice is shorter than two. -/
def Buffer.Unlock {σ : Type} (a : WordSize) (b : Buffer σ) (segments : List SliceHeader)
    (s : σ) : Except GoPanic (σ × Option GoError) :=
  match segments with
  | [] => .error (.indexOutOfRange 0 0)
  | [_] => .error (.indexOutOfRange 1 1)
  | seg0 :: seg1 :: _ =>
    let r := b.vtbl.Unlock b.self seg0.Data (toUintptr a seg0.Len) seg1.Data
      (toUintptr a seg1.Len) s
    if r.2 != 0 then
      .ok (r.1, some (Errorf errDirectSoundBuffer (": Unlock returned " ++ fmtHex08 r.2)))
    else .ok (r.1, none)

/-! ## `notify.go` -/

/-- The method `Notify.AddRef`. -/
def Notify.AddRef {σ : Type} (n : Notify σ) (s : σ) : σ × Option GoError :=
  let r := n.vtbl.AddRef n.self s
  if r.2 != 0 then
    (r.1, some (Errorf errDirectSoundNotify (": AddRef returned " ++ fmtHex08 r.2)))
  else (r.1, none)

/-- The method `Notify.Release`. -/
def Notify.Release {σ : Type} (n : Notify σ) (s : σ) : σ × Option GoError :=
  let r := n.vtbl.Release n.self s
  if r.2 != 0 then
    (r.1, some (Errorf errDirectSoundNotify (": Release returned " ++ fmtHex08 r.2)))
  else (r.1, none)

/-- The method `Notify.SetNotificationPositions`.  The arguments of the system call are
evaluated first, and `&events[0]` panics on an empty slice.  The device receives the count,
the address of the first element and, through that address, the elements themselves. -/
def Notify.SetNotificationPositions {σ : Type} (n : Notify σ) (events : EventSlice) (s : σ) :
    Except GoPanic (σ × Option GoError) :=
  match events.elems with
  | [] => .error (.indexOutOfRange 0 0)
  | _ :: _ =>
    let r := n.vtbl.SetNotificationPositions n.self events.elems.length events.Data
      events.elems s
    if r.2 != 0 then
      .ok (r.1, some (Errorf errDirectSoundNotify
        (": SetNotificationPositions returned " ++ fmtHex08 r.2)))
    else .ok (r.1, none)

/-! ## `dsound.go` -/

/-- The method `DirectSound.addRef`. -/
def DirectSound.addRef {σ : Type} (ds : DirectSound σ) (s : σ) : σ × Option GoError :=
  let r := ds.vtbl.AddRef ds.self s
  if r.2 != 0 then
    (r.1, some (Errorf errDirectSound (": AddRef returned " ++ fmtHex08 r.2)))
  else (r.1, none)

/-- The method `DirectSound.release`. -/
def DirectSound.release {σ : Type} (ds : DirectSound σ) (s : σ) : σ × Option GoError :=
  let r := ds.vtbl.Release ds.self s
  if r.2 != 0 then
    (r.1, some (Errorf errDirectSound (": Release returned " ++ fmtHex08 r.2)))
  else (r.1, none)

/-- The method `DirectSound.setCooperativeLevel`. -/
def DirectSound.setCooperativeLevel {σ : Type} (ds : DirectSound σ) (hwnd level : Nat)
    (s : σ) : σ × Option GoError :=
  let r := ds.vtbl.SetCooperativeLevel ds.self hwnd level s
  if r.2 != 0 then
    (r.1, some (Errorf errDirectSound (": SetCooperativeLevel returned " ++ fmtHex08 r.2)))
  else (r.1, none)

/-- The function `createDevice`.  A device that reports success without storing an object
makes the following method call dereference nil. -/
def createDevice {σ : Type} (k : Consts) (host : Host σ) (deviceID : Option GUID) (s : σ) :
    Except GoPanic (σ × Option (DirectSound σ) × Option GoError) :=
  let r := host.DirectSoundCreate8 deviceID s
  if r.2.1 != 0 then
    .ok (r.1, none,
      some (Errorf errDirectSound (": DirectSoundCreate8 returned " ++ fmtHex08 r.2.1)))
  else
    let hwnd := host.GetDesktopWindow r.1
    match r.2.2 with
    | none => .error .nilDereference
    | some obj =>
      let c := obj.setCooperativeLevel hwnd k.DSSCL_PRIORITY r.1
      match c.2 with
      | some err => .ok ((obj.release c.1).1, none, some err)
      | none => .ok (c.1, some obj, none)

/-- The function `NewDSound`: the preferred name is not used, `deviceID` stays nil. -/
def NewDSound {σ : Type} (k : Consts) (host : Host σ) (preferredDeviceName : String) (s : σ) :
    Except GoPanic (σ × Option (DirectSound σ) × Option GoError) :=
  let deviceID : Option GUID := if preferredDeviceName != "" then none else none
  createDevice k host deviceID s

/-- The format descriptor `wfx` that `CreateSoundBufferPrimary` builds from its arguments. -/
def primaryFormat (a : WordSize) (k : Consts) (channels samplesPerSec bitsPerSample : Int) :
    WAVEFORMATEX :=
  let NSamplesPerSec := toUint32 samplesPerSec
  let NBlockAlign := toUint16 (intQuo (intMul a channels bitsPerSample) 8)
  { WFormatTag := k.WAVE_FORMAT_PCM
    NChannels := toUint16 channels
    NSamplesPerSec := NSamplesPerSec
    WBitsPerSample := toUint16 bitsPerSample
    CbSize := k.sizeofWaveFormat % 65536
    NBlockAlign := NBlockAlign
    NAvgBytesPerSec := uint32Mul NSamplesPerSec (NBlockAlign % 4294967296) }

/-- The descriptor `bd` that `CreateSoundBufferPrimary` passes to the device. -/
def primaryBufferDesc (k : Consts) : dsBufferDesc :=
  ⟨k.sizeofBufferDesc % 4294967296, k.DSBCAPS_PRIMARYBUFFER, 0, 0, none⟩

/-- The descriptor `bd` that `CreateSoundBufferSecondary` passes to the device. -/
def secondaryBufferDesc (k : Consts) (wfx : Option WAVEFORMATEX) (bufferSize : Int) :
    dsBufferDesc :=
  ⟨k.sizeofBufferDesc % 4294967296,
    k.DSBCAPS_GETCURRENTPOSITION2 ||| k.DSBCAPS_GLOBALFOCUS ||| k.DSBCAPS_CTRLALL,
    toUint32 bufferSize, 0, wfx⟩

/-- The method `DirectSound.CreateSoundBufferPrimary`. -/
def DirectSound.CreateSoundBufferPrimary {σ : Type} (a : WordSize) (k : Consts)
    (ds : DirectSound σ) (channels samplesPerSec bitsPerSample : Int) (s : σ) :
    Except GoPanic (σ × Option (Buffer σ) × Option WAVEFORMATEX × Option GoError) :=
  let bd : dsBufferDesc := primaryBufferDesc k
  let r := ds.vtbl.CreateSoundBuffer ds.self bd s
  if r.2.1 != 0 then
    .ok (r.1, none, none,
      some (Errorf errDirectSound (": CreateSoundBuffer(primary) returned " ++ fmtHex08 r.2.1)))
  else
    let wfx := primaryFormat a k channels samplesPerSec bitsPerSample
    match r.2.2 with
    | none => .error .nilDereference
    | some buffer =>
      let f := buffer.setFormat wfx r.1
      match f.2 with
      | some err => .ok ((buffer.Release f.1).1, none, none, some err)
      | none => .ok (f.1, some buffer, some wfx, none)

/-- The method `DirectSound.CreateSoundBufferSecondary`. -/
def DirectSound.CreateSoundBufferSecondary {σ : Type} (k : Consts)
    (ds : DirectSound σ) (wfx : Option WAVEFORMATEX) (bufferSize : Int) (s : σ) :
    σ × Option (Buffer σ) × Option GoError :=
  let bd : dsBufferDesc := secondaryBufferDesc k wfx bufferSize
  let r := ds.vtbl.CreateSoundBuffer ds.self bd s
  if r.2.1 != 0 then
    (r.1, none,
      some (Errorf errDirectSound (": CreateSoundBuffer(secondary) returned " ++ fmtHex08 r.2.1)))
  else (r.1, r.2.2, none)

/-- The method `DirectSound.Close`. -/
def DirectSound.Close {σ : Type} (ds : DirectSound σ) (s : σ) : σ × Option GoError :=
  ds.release s

/-! ## The ring behind a buffer and the caller's use of a locked region -/

/-- Process memory as the device and the Go code both see it: one byte per address. -/
abbrev Mem : Type := Nat → UInt8

/-- The status `DSERR_INVALIDPARAM`. -/
def DSERR_INVALIDPARAM : Nat := 0x80070057

/-- The status `E_NOTIMPL`. -/
def E_NOTIMPL : Nat := 0x80004001

/-- A ring of `capacityBytes` bytes mapped at address `base`, for frames of `blockAlign`
bytes. -/
structure Ring where
  base : Nat
  capacityBytes : Nat
  blockAlign : Nat
deriving DecidableEq

/-- Modelled from the spec: the `Lock` entry of the device, which lives outside the
repository.  Section 4.1: the request is valid when `offset < capacityBytes`,
`length ≤ capacityBytes` and both are frame-aligned; if `offset + length > capacityBytes`
the region wraps, the primary segment is `[offset, capacityBytes)` and the wrap segment is
`[0, offset + length - capacityBytes)`; otherwise the wrap segment is empty. -/
def ringLock (r : Ring) (offset length : Nat) : LockReply :=
  if offset < r.capacityBytes ∧ length ≤ r.capacityBytes ∧
      offset % r.blockAlign = 0 ∧ length % r.blockAlign = 0 then
    if offset + length > r.capacityBytes then
      ⟨0, r.base + offset, r.capacityBytes - offset, r.base, offset + length - r.capacityBytes⟩
    else ⟨0, r.base + offset, length, 0, 0⟩
  else ⟨DSERR_INVALIDPARAM, 0, 0, 0, 0⟩

/-- Modelled from the spec: the vtable of a ring device.  `Lock` hands out views of the
ring memory, `Unlock` commits them and leaves the bytes in place; the entries the ring model
does not cover report `E_NOTIMPL`. -/
def ringVtbl (r : Ring) : directSoundBufferVtbl Mem where
  QueryInterface := fun _ _ m => (m, E_NOTIMPL, none)
  AddRef := fun _ m => (m, E_NOTIMPL)
  Release := fun _ m => (m, E_NOTIMPL)
  GetCurrentPosition := fun _ m => (m, E_NOTIMPL, 0, 0)
  GetStatus := fun _ m => (m, E_NOTIMPL, 0)
  Lock := fun _ offset length _ m => (m, ringLock r offset length)
  Play := fun _ _ _ _ m => (m, E_NOTIMPL)
  SetFormat := fun _ _ m => (m, E_NOTIMPL)
  Unlock := fun _ _ _ _ _ m => (m, 0)

/-- Modelled from the spec: a `Buffer` backed by the ring `r`. -/
def ringBuffer (r : Ring) : Buffer Mem := ⟨r.base, ringVtbl r⟩

/-- The bytes a caller reads through the slice `h`: `h[0], ..., h[len(h)-1]`. -/
def SliceHeader.read (h : SliceHeader) (m : Mem) : List UInt8 :=
  (List.range h.Len.toNat).map (fun i => m (h.Data + i))

/-- The memory after a caller ran `copy(h, src)`: the first `min(len(h), len(src))`
bytes of `src` land at `h.Data`. -/
def SliceHeader.write (h : SliceHeader) (src : List UInt8) (m : Mem) : Mem :=
  fun addr =>
    if h.Data ≤ addr ∧ addr < h.Data + min h.Len.toNat src.length then
      src.getD (addr - h.Data) 0
    else m addr

/-- Filling a locked region with `data`: the primary segment takes the first bytes, the
wrap segment the rest. -/
def writeSegments (segments : List SliceHeader) (data : List UInt8) (m : Mem) : Mem :=
  match segments with
  | [] => m
  | h :: rest => writeSegments rest (data.drop h.Len.toNat) (h.write (data.take h.Len.toNat) m)

/-- The bytes of a locked region: the segments read one after the other. -/
def readSegments (segments : List SliceHeader) (m : Mem) : List UInt8 :=
  match segments with
  | [] => []
  | h :: rest => h.read m ++ readSegments rest m

/-- Modelled from the spec: `CursorTracker.FreeBytes`, which the repository does not
implement.  Sections 3 and 4.2: the modular distance from `lastCommitted` to `writeCursor`,
`capacityBytes - lastCommitted + writeCursor` when `writeCursor < lastCommitted`. -/
def FreeBytes (capacityBytes lastCommitted writeCursor : Nat) : Nat :=
  if writeCursor < lastCommitted then capacityBytes - lastCommitted + writeCursor
  else writeCursor - lastCommitted

/-! ## Sample devices and constants -/

/-- The values of `dsound.h` and `mmreg.h` for the constants the sources import, with the
struct sizes of a 64-bit build; `DSBCAPS_CTRLALL` is taken as the union of the frequency,
pan, volume and position-notify control flags. -/
def sampleConsts : Consts where
  DSBPLAY_LOOPING := 0x1
  DSBCAPS_PRIMARYBUFFER := 0x1
  DSBCAPS_GETCURRENTPOSITION2 := 0x10000
  DSBCAPS_GLOBALFOCUS := 0x8000
  DSBCAPS_CTRLALL := 0x1e0
  DSSCL_PRIORITY := 0x2
  WAVE_FORMAT_PCM := 0x1
  sizeofBufferDesc := 24
  sizeofWaveFormat := 20

/-- A notification object whose every entry reports success. -/
def okNotify : Notify Unit :=
  ⟨1, ⟨fun _ s => (s, 0), fun _ s => (s, 0), fun _ _ _ _ s => (s, 0)⟩⟩

/-- A buffer vtable whose every entry reports success and stores zeroes. -/
def okBufferVtbl : directSoundBufferVtbl Unit where
  QueryInterface := fun _ _ s => (s, 0, some okNotify)
  AddRef := fun _ s => (s, 0)
  Release := fun _ s => (s, 0)
  GetCurrentPosition := fun _ s => (s, 0, 0, 0)
  GetStatus := fun _ s => (s, 0, 0)
  Lock := fun _ _ _ _ s => (s, ⟨0, 0, 0, 0, 0⟩)
  Play := fun _ _ _ _ s => (s, 0)
  SetFormat := fun _ _ s => (s, 0)
  Unlock := fun _ _ _ _ _ s => (s, 0)

/-- A buffer whose every entry reports success. -/
def okBuffer : Buffer Unit := ⟨2, okBufferVtbl⟩

/-- A device whose every entry reports success and that hands out `okBuffer`. -/
def okDirectSound : DirectSound Unit :=
  ⟨3, ⟨fun _ s => (s, 0), fun _ s => (s, 0), fun _ _ s => (s, 0, some okBuffer),
    fun _ _ _ s => (s, 0)⟩⟩

/-- An all-zero memory. -/
def zeroMem : Mem := fun _ => 0

/-- The ring of the spec's scenarios: 4096 bytes, frames of 4 bytes. -/
def ring4096 : Ring := ⟨0x10000, 4096, 4⟩

/-- A small ring for worked examples: 16 bytes, frames of 4 bytes. -/
def ring16 : Ring := ⟨0x2000, 16, 4⟩

/-- The error contract of an operation that reports the status `retVal` of a device call:
the returned error is non-nil exactly when the status is non-zero, and a non-nil error has
`ErrDirectSound` in its wrap chain. -/
def ReportsStatus (err : Option GoError) (retVal : Nat) : Prop :=
  (err ≠ none ↔ retVal ≠ 0) ∧ ∀ e : GoError, err = some e → errorsIs e ErrDirectSound = true

/-! # Theorems -/

/-! ## Arithmetic of the conversions -/

theorem toUintptr_natCast (a : WordSize) (n : Nat) (h : n < a.modulus) :
    toUintptr a (n : Int) = n := by
  unfold toUintptr
  rw [← Int.natCast_mod, Int.toNat_natCast, Nat.mod_eq_of_lt h]

theorem toInt_of_isInt (a : WordSize) (x : Int) (h : IsInt a x) : toInt a x = x := by
  unfold toInt
  unfold IsInt at h
  cases a <;> simp [WordSize.modulus, WordSize.bits] at h ⊢ <;> omega

theorem toUintptr_toInt (a : WordSize) (n : Nat) (h : n < a.modulus) :
    toUintptr a (toInt a (n : Int)) = n := by
  unfold toUintptr toInt
  cases a <;> simp [WordSize.modulus, WordSize.bits] at h ⊢ <;> omega

theorem modulus_ge (a : WordSize) : 4294967296 ≤ a.modulus := by
  cases a <;> simp [WordSize.modulus, WordSize.bits]

/-! ## The ring device -/

theorem ringLock_wrap (r : Ring) (offset length : Nat)
    (ho : offset < r.capacityBytes) (hl : length ≤ r.capacityBytes)
    (hao : offset % r.blockAlign = 0) (hal : length % r.blockAlign = 0)
    (hw : offset + length > r.capacityBytes) :
    ringLock r offset length =
      ⟨0, r.base + offset, r.capacityBytes - offset, r.base,
        offset + length - r.capacityBytes⟩ := by
  unfold ringLock
  rw [if_pos ⟨ho, hl, hao, hal⟩, if_pos hw]

theorem ringLock_flat (r : Ring) (offset length : Nat)
    (ho : offset < r.capacityBytes) (hl : length ≤ r.capacityBytes)
    (hao : offset % r.blockAlign = 0) (hal : length % r.blockAlign = 0)
    (hw : offset + length ≤ r.capacityBytes) :
    ringLock r offset length = ⟨0, r.base + offset, length, 0, 0⟩ := by
  unfold ringLock
  rw [if_pos ⟨ho, hl, hao, hal⟩, if_neg (by omega)]

/-- What `Buffer.Lock` returns when the device reports success. -/
theorem Buffer.Lock_of_success {σ : Type} (a : WordSize) (b : Buffer σ) (offset numBytes : Int)
    (s s1 : σ) (reply : LockReply)
    (hr : b.vtbl.Lock b.self (toUintptr a offset) (toUintptr a numBytes) 0 s = (s1, reply))
    (h0 : reply.retVal = 0) :
    Buffer.Lock a b offset numBytes s =
      (s1,
        some [⟨reply.audioPtr1 % a.modulus,
              toInt a ((reply.audioBytes1 % 4294967296 : Nat) : Int),
              toInt a ((reply.audioBytes1 % 4294967296 : Nat) : Int)⟩,
            ⟨reply.audioPtr2 % a.modulus,
              toInt a ((reply.audioBytes2 % 4294967296 : Nat) : Int),
              toInt a ((reply.audioBytes2 % 4294967296 : Nat) : Int)⟩], none) := by
  simp [Buffer.Lock, storedHeader, hr, h0]

/-- The segments `Buffer.Lock` returns over a ring for a valid request. -/
theorem Buffer.Lock_ring (a : WordSize) (r : Ring) (offset numBytes : Nat) (m : Mem)
    (hcap : r.capacityBytes < 4294967296)
    (ho : offset < r.capacityBytes) (hl : numBytes ≤ r.capacityBytes)
    (hint : IsInt a numBytes)
    (hao : offset % r.blockAlign = 0) (hal : numBytes % r.blockAlign = 0) :
    Buffer.Lock a (ringBuffer r) offset numBytes m =
      (m, some [⟨(r.base + offset) % a.modulus,
                  (min numBytes (r.capacityBytes - offset) : Nat),
                  (min numBytes (r.capacityBytes - offset) : Nat)⟩,
                ⟨(if offset + numBytes > r.capacityBytes then r.base else 0) % a.modulus,
                  (offset + numBytes - r.capacityBytes : Nat),
                  (offset + numBytes - r.capacityBytes : Nat)⟩], none) := by
  have hmod := modulus_ge a
  have hisInt : ∀ k : Nat, k ≤ numBytes → toInt a ((k % 4294967296 : Nat) : Int) = (k : Int) := by
    intro k hk
    rw [Nat.mod_eq_of_lt (by omega)]
    apply toInt_of_isInt
    unfold IsInt at hint ⊢
    omega
  have hcall : (ringBuffer r).vtbl.Lock (ringBuffer r).self (toUintptr a (offset : Int))
      (toUintptr a (numBytes : Int)) 0 m = (m, ringLock r offset numBytes) := by
    rw [toUintptr_natCast a offset (by omega), toUintptr_natCast a numBytes (by omega)]
    rfl
  by_cases hw : offset + numBytes > r.capacityBytes
  · rw [Buffer.Lock_of_success a (ringBuffer r) offset numBytes m m _ hcall
      (by rw [ringLock_wrap r offset numBytes ho hl hao hal hw])]
    rw [ringLock_wrap r offset numBytes ho hl hao hal hw]
    simp only [if_pos hw]
    rw [hisInt _ (by omega), hisInt _ (by omega),
      Nat.min_eq_right (by omega : r.capacityBytes - offset ≤ numBytes)]
  · have hw2 : offset + numBytes ≤ r.capacityBytes := by omega
    rw [Buffer.Lock_of_success a (ringBuffer r) offset numBytes m m _ hcall
      (by rw [ringLock_flat r offset numBytes ho hl hao hal hw2])]
    rw [ringLock_flat r offset numBytes ho hl hao hal hw2]
    simp only [if_neg hw]
    rw [hisInt _ (by omega), hisInt _ (by omega),
      Nat.min_eq_left (by omega : numBytes ≤ r.capacityBytes - offset),
      Nat.sub_eq_zero_of_le hw2]

/-- Claim C1.  Over a ring of capacity `C`, for every valid request (`offset < C`,
`length ≤ C`, both multiples of `blockAlign`), `Buffer.Lock` succeeds and returns exactly two
segments, primary and wrap, whose lengths sum to `length`; the wrap segment is non-empty
exactly when `offset + length > C`; in the wrapping case the primary segment has length
`C - offset` and the wrap segment has length `offset + length - C`. -/
theorem Buffer.Lock_segment_lengths (a : WordSize) (r : Ring) (offset numBytes : Int) (m : Mem)
    (hcap : r.capacityBytes < 4294967296)
    (ho0 : 0 ≤ offset) (ho : offset < r.capacityBytes)
    (hl0 : 0 ≤ numBytes) (hl : numBytes ≤ r.capacityBytes)
    (hint : IsInt a numBytes)
    (hao : offset % r.blockAlign = 0) (hal : numBytes % r.blockAlign = 0) :
    ∃ primary wrap : SliceHeader,
      Buffer.Lock a (ringBuffer r) offset numBytes m = (m, some [primary, wrap], none) ∧
      primary.Len + wrap.Len = numBytes ∧
      (0 < wrap.Len ↔ offset + numBytes > r.capacityBytes) ∧
      (offset + numBytes > r.capacityBytes →
        primary.Len = r.capacityBytes - offset ∧
        wrap.Len = offset + numBytes - r.capacityBytes) := by
  lift offset to ℕ using ho0
  lift numBytes to ℕ using hl0
  have ho' : offset < r.capacityBytes := by exact_mod_cast ho
  have hl' : numBytes ≤ r.capacityBytes := by exact_mod_cast hl
  have hao' : offset % r.blockAlign = 0 := by exact_mod_cast hao
  have hal' : numBytes % r.blockAlign = 0 := by exact_mod_cast hal
  refine ⟨_, _, Buffer.Lock_ring a r offset numBytes m hcap ho' hl' hint hao' hal', ?_, ?_, ?_⟩
  · simp only; omega
  · simp only; omega
  · intro hw; simp only; omega

/-- The two scenarios of the spec on the 4096-byte ring: `Lock(4000, 296)` yields lengths
96 and 200, `Lock(0, 1000)` yields lengths 1000 and 0. -/
theorem Buffer.Lock_segment_lengths_witness :
    (∃ primary wrap : SliceHeader,
      Buffer.Lock .w64 (ringBuffer ring4096) 4000 296 zeroMem
        = (zeroMem, some [primary, wrap], none) ∧
      primary.Len + wrap.Len = 296 ∧
      (0 < wrap.Len ↔ (4000 : Int) + 296 > ring4096.capacityBytes) ∧
      ((4000 : Int) + 296 > ring4096.capacityBytes →
        primary.Len = ring4096.capacityBytes - 4000 ∧
        wrap.Len = 4000 + 296 - ring4096.capacityBytes)) ∧
    (Buffer.Lock .w64 (ringBuffer ring4096) 4000 296 zeroMem).2.1
      = some [⟨0x10000 + 4000, 96, 96⟩, ⟨0x10000, 200, 200⟩] ∧
    (Buffer.Lock .w64 (ringBuffer ring4096) 0 1000 zeroMem).2.1
      = some [⟨0x10000, 1000, 1000⟩, ⟨0, 0, 0⟩] :=
  ⟨Buffer.Lock_segment_lengths .w64 ring4096 4000 296 zeroMem (by decide) (by decide)
      (by decide) (by decide) (by decide) (by decide) (by decide) (by decide),
    by decide, by decide⟩

/-! ## Reading and writing through slices -/

theorem SliceHeader.read_write_self (h : SliceHeader) (src : List UInt8) (m : Mem)
    (hlen : src.length = h.Len.toNat) : h.read (h.write src m) = src := by
  apply List.ext_getElem
  · simp [SliceHeader.read, hlen]
  · intro i h1 h2
    have hi : i < h.Len.toNat := by omega
    simp only [SliceHeader.read, SliceHeader.write, List.getElem_map, List.getElem_range]
    rw [if_pos ⟨by omega, by omega⟩, Nat.add_sub_cancel_left, List.getD_eq_getElem _ _ h2]

theorem SliceHeader.read_write_disjoint (h h' : SliceHeader) (src : List UInt8) (m : Mem)
    (hdis : h.Data + h.Len.toNat ≤ h'.Data ∨ h'.Data + h'.Len.toNat ≤ h.Data ∨
      h'.Len.toNat = 0) :
    h.read (h'.write src m) = h.read m := by
  unfold SliceHeader.read
  apply List.map_congr_left
  intro i hi
  rw [List.mem_range] at hi
  unfold SliceHeader.write
  rw [if_neg]
  omega

theorem readSegments_writeSegments (p w : SliceHeader) (data : List UInt8) (m : Mem)
    (hp : 0 ≤ p.Len) (hw : 0 ≤ w.Len) (hlen : (data.length : Int) = p.Len + w.Len)
    (hdis : p.Data + p.Len.toNat ≤ w.Data ∨ w.Data + w.Len.toNat ≤ p.Data ∨
      w.Len.toNat = 0) :
    readSegments [p, w] (writeSegments [p, w] data m) = data := by
  simp only [readSegments, writeSegments, List.append_nil]
  have htake : List.take w.Len.toNat (List.drop p.Len.toNat data)
      = List.drop p.Len.toNat data :=
    List.take_of_length_le (by rw [List.length_drop]; omega)
  rw [SliceHeader.read_write_disjoint p w _ _ hdis,
    SliceHeader.read_write_self p _ m (by rw [List.length_take]; omega),
    SliceHeader.read_write_self w _ _ (by
      rw [List.length_take, List.length_drop]; omega),
    htake, List.take_append_drop]

/-- What `Buffer.Unlock` does over a ring: the device accepts the commit and leaves the
memory as it is. -/
theorem Buffer.Unlock_ring (a : WordSize) (r : Ring) (seg0 seg1 : SliceHeader)
    (rest : List SliceHeader) (m : Mem) :
    Buffer.Unlock a (ringBuffer r) (seg0 :: seg1 :: rest) m = .ok (m, none) := by
  simp [Buffer.Unlock, ringBuffer, ringVtbl]

/-- Claim C2.  Round trip through the ring: for every valid request and every `data` of
`length` bytes, after `Lock`, filling the returned segments with `data` (primary first, then
wrap) and `Unlock` of those segments, a fresh `Lock` of the same range succeeds and the
bytes of its segments, read one after the other, are exactly `data`. -/
theorem Buffer.Lock_Unlock_roundtrip (a : WordSize) (r : Ring) (offset numBytes : Int)
    (m : Mem) (data : List UInt8)
    (hcap : r.capacityBytes < 4294967296)
    (hfit : r.base + r.capacityBytes ≤ a.modulus)
    (ho0 : 0 ≤ offset) (ho : offset < r.capacityBytes)
    (hl0 : 0 ≤ numBytes) (hl : numBytes ≤ r.capacityBytes)
    (hint : IsInt a numBytes)
    (hao : offset % r.blockAlign = 0) (hal : numBytes % r.blockAlign = 0)
    (hdata : (data.length : Int) = numBytes) :
    ∃ primary wrap : SliceHeader,
      Buffer.Lock a (ringBuffer r) offset numBytes m = (m, some [primary, wrap], none) ∧
      ∃ m1 : Mem,
        Buffer.Unlock a (ringBuffer r) [primary, wrap] (writeSegments [primary, wrap] data m)
          = .ok (m1, none) ∧
        ∃ primary1 wrap1 : SliceHeader,
          Buffer.Lock a (ringBuffer r) offset numBytes m1
            = (m1, some [primary1, wrap1], none) ∧
          readSegments [primary1, wrap1] m1 = data := by
  lift offset to ℕ using ho0
  lift numBytes to ℕ using hl0
  have ho1 : offset < r.capacityBytes := by exact_mod_cast ho
  have hl1 : numBytes ≤ r.capacityBytes := by exact_mod_cast hl
  have hao1 : offset % r.blockAlign = 0 := by exact_mod_cast hao
  have hal1 : numBytes % r.blockAlign = 0 := by exact_mod_cast hal
  have hlock := fun m0 : Mem => Buffer.Lock_ring a r offset numBytes m0 hcap ho1 hl1 hint hao1 hal1
  refine ⟨_, _, hlock m, _, Buffer.Unlock_ring a r _ _ [] _, _, _, hlock _, ?_⟩
  apply readSegments_writeSegments
  · simp only; omega
  · simp only; omega
  · simp only; omega
  · simp only
    rw [Nat.mod_eq_of_lt (by omega : r.base + offset < a.modulus)]
    by_cases hw : offset + numBytes > r.capacityBytes
    · rw [if_pos hw, Nat.mod_eq_of_lt (by omega : r.base < a.modulus)]
      right; left
      simp only [Int.toNat_ofNat]
      omega
    · right; right
      simp only [Int.toNat_ofNat]
      omega

/-- The round trip on the 16-byte ring at address `0x2000`: eight bytes written at offset
12 wrap around and are read back unchanged. -/
theorem Buffer.Lock_Unlock_roundtrip_witness :
    ((ring16.capacityBytes < 4294967296 ∧ ring16.base + ring16.capacityBytes
        ≤ WordSize.w64.modulus) ∧
      ((12 : Int) < ring16.capacityBytes ∧ (8 : Int) ≤ ring16.capacityBytes ∧
        IsInt .w64 8 ∧ (12 : Int) % ring16.blockAlign = 0 ∧ (8 : Int) % ring16.blockAlign = 0)) ∧
    ∃ primary wrap : SliceHeader,
      Buffer.Lock .w64 (ringBuffer ring16) 12 8 zeroMem
        = (zeroMem, some [primary, wrap], none) ∧
      ∃ m1 : Mem,
        Buffer.Unlock .w64 (ringBuffer ring16) [primary, wrap]
            (writeSegments [primary, wrap] [1, 2, 3, 4, 5, 6, 7, 8] zeroMem)
          = .ok (m1, none) ∧
        ∃ primary1 wrap1 : SliceHeader,
          Buffer.Lock .w64 (ringBuffer ring16) 12 8 m1
            = (m1, some [primary1, wrap1], none) ∧
          readSegments [primary1, wrap1] m1 = [1, 2, 3, 4, 5, 6, 7, 8] :=
  ⟨by decide,
    Buffer.Lock_Unlock_roundtrip .w64 ring16 12 8 zeroMem [1, 2, 3, 4, 5, 6, 7, 8]
      (by decide) (by decide) (by decide) (by decide) (by decide) (by decide) (by decide)
      (by decide) (by decide) (by decide)⟩

/-! ## Errors wrap `ErrDirectSound` -/

theorem errorsIs_Errorf (err target : GoError) (rest : String)
    (h : errorsIs err target = true) : errorsIs (Errorf err rest) target = true := by
  unfold Errorf
  rw [errorsIs]
  split
  · rfl
  · exact h

theorem errorsIs_buffer (rest : String) :
    errorsIs (Errorf errDirectSoundBuffer rest) ErrDirectSound = true :=
  errorsIs_Errorf _ _ _ (by decide)

theorem errorsIs_notify (rest : String) :
    errorsIs (Errorf errDirectSoundNotify rest) ErrDirectSound = true :=
  errorsIs_Errorf _ _ _ (by decide)

theorem errorsIs_device (rest : String) :
    errorsIs (Errorf errDirectSound rest) ErrDirectSound = true :=
  errorsIs_Errorf _ _ _ (by decide)

/-- What `Buffer.Lock` returns when the device reports a failure. -/
theorem Buffer.Lock_of_failure {σ : Type} (a : WordSize) (b : Buffer σ) (offset numBytes : Int)
    (s s1 : σ) (reply : LockReply)
    (hr : b.vtbl.Lock b.self (toUintptr a offset) (toUintptr a numBytes) 0 s = (s1, reply))
    (h0 : reply.retVal ≠ 0) :
    Buffer.Lock a b offset numBytes s =
      (s1, none,
        some (Errorf errDirectSoundBuffer (": Lock returned " ++ fmtHex08 reply.retVal))) := by
  simp [Buffer.Lock, hr, h0]

/-! ## Single-writer discipline (C3) -/

/-- Claim C3, as stated, fails.  On the 4096-byte ring a `Lock(0, 1000)` succeeds; with no
`Unlock` in between, a second `Lock(0, 1000)` on the resulting state returns a nil error and
the very same region again. -/
theorem Buffer.Lock_twice_both_succeed :
    Buffer.Lock .w64 (ringBuffer ring4096) 0 1000 zeroMem
      = (zeroMem, some [⟨0x10000, 1000, 1000⟩, ⟨0, 0, 0⟩], none) ∧
    Buffer.Lock .w64 (ringBuffer ring4096) 0 1000
        (Buffer.Lock .w64 (ringBuffer ring4096) 0 1000 zeroMem).1
      = (zeroMem, some [⟨0x10000, 1000, 1000⟩, ⟨0, 0, 0⟩], none) :=
  ⟨rfl, rfl⟩

/-- Claim C3, amended.  `Buffer` holds no held/free flag.  After a successful `Lock` with no
`Unlock`, a second `Lock` is forwarded to the device like any other call: when the device
reports status zero it succeeds and returns two segments; when the device reports a non-zero
status it returns nil segments and an error that wraps `ErrDirectSound` and carries the
status, the only kind of error `Lock` can return. -/
theorem Buffer.Lock_while_locked {σ : Type} (a : WordSize) (b : Buffer σ)
    (offset numBytes offset2 numBytes2 : Int) (s s1 s2 : σ) (held : List SliceHeader)
    (reply : LockReply)
    (_hfirst : Buffer.Lock a b offset numBytes s = (s1, some held, none))
    (hreply : b.vtbl.Lock b.self (toUintptr a offset2) (toUintptr a numBytes2) 0 s1
      = (s2, reply)) :
    (reply.retVal = 0 →
      ∃ primary wrap : SliceHeader,
        Buffer.Lock a b offset2 numBytes2 s1 = (s2, some [primary, wrap], none)) ∧
    (reply.retVal ≠ 0 →
      Buffer.Lock a b offset2 numBytes2 s1
        = (s2, none,
            some (Errorf errDirectSoundBuffer (": Lock returned " ++ fmtHex08 reply.retVal))) ∧
      errorsIs (Errorf errDirectSoundBuffer (": Lock returned " ++ fmtHex08 reply.retVal))
        ErrDirectSound = true) := by
  constructor
  · intro h0
    exact ⟨_, _, Buffer.Lock_of_success a b offset2 numBytes2 s1 s2 reply hreply h0⟩
  · intro h0
    exact ⟨Buffer.Lock_of_failure a b offset2 numBytes2 s1 s2 reply hreply h0,
      errorsIs_buffer _⟩

/-- On the 4096-byte ring, with `Lock(0, 1000)` outstanding: the device accepts
`Lock(1000, 1000)`, so the second call succeeds. -/
theorem Buffer.Lock_while_locked_witness :
    (ringLock ring4096 1000 1000).retVal = 0 ∧
    ((ringLock ring4096 1000 1000).retVal = 0 →
      ∃ primary wrap : SliceHeader,
        Buffer.Lock .w64 (ringBuffer ring4096) 1000 1000 zeroMem
          = (zeroMem, some [primary, wrap], none)) :=
  ⟨by decide,
    (Buffer.Lock_while_locked .w64 (ringBuffer ring4096) 0 1000 1000 1000 zeroMem zeroMem
      zeroMem [⟨0x10000, 1000, 1000⟩, ⟨0, 0, 0⟩] (ringLock ring4096 1000 1000) rfl rfl).1⟩

/-! ## Notification registration (C7, C10) -/

/-- Claim C7, as stated, fails.  On a ring with frames of 4 bytes, an entry at offset 3 is not
frame-aligned, yet `SetNotificationPositions` passes it to a device that accepts it and
returns a nil error; a schedule of 40 entries is passed on and accepted just the same. -/
theorem Notify.SetNotificationPositions_accepts_misaligned :
    3 % ring4096.blockAlign ≠ 0 ∧
    Notify.SetNotificationPositions okNotify ⟨0x5000, [⟨3, 1⟩]⟩ () = .ok ((), none) ∧
    Notify.SetNotificationPositions okNotify ⟨0x5000, List.replicate 40 ⟨3, 1⟩⟩ ()
      = .ok ((), none) :=
  ⟨by decide, rfl, rfl⟩

/-- Claim C7, amended.  `SetNotificationPositions` validates neither the number of entries nor
their offsets: every non-empty schedule is forwarded to the device as it is, and the call
fails exactly when the device reports a non-zero status, with an error that wraps
`ErrDirectSound` and carries that status; when the device reports zero the call returns nil. -/
theorem Notify.SetNotificationPositions_unvalidated {σ : Type} (n : Notify σ) (data : Nat)
    (e : PositionNotify) (es : List PositionNotify) (s : σ) :
    ((n.vtbl.SetNotificationPositions n.self (e :: es).length data (e :: es) s).2 = 0 ∧
      Notify.SetNotificationPositions n ⟨data, e :: es⟩ s
        = .ok ((n.vtbl.SetNotificationPositions n.self (e :: es).length data (e :: es) s).1,
            none)) ∨
    ((n.vtbl.SetNotificationPositions n.self (e :: es).length data (e :: es) s).2 ≠ 0 ∧
      Notify.SetNotificationPositions n ⟨data, e :: es⟩ s
        = .ok ((n.vtbl.SetNotificationPositions n.self (e :: es).length data (e :: es) s).1,
            some (Errorf errDirectSoundNotify (": SetNotificationPositions returned " ++
              fmtHex08
                (n.vtbl.SetNotificationPositions n.self (e :: es).length data (e :: es) s).2)))
      ∧ errorsIs (Errorf errDirectSoundNotify (": SetNotificationPositions returned " ++
              fmtHex08
                (n.vtbl.SetNotificationPositions n.self (e :: es).length data (e :: es) s).2))
          ErrDirectSound = true) := by
  by_cases h : (n.vtbl.SetNotificationPositions n.self (e :: es).length data (e :: es) s).2 = 0
  · left
    have h1 : (n.vtbl.SetNotificationPositions n.self (es.length + 1) data (e :: es) s).2 = 0 :=
      h
    exact ⟨h, by simp [Notify.SetNotificationPositions, h1]⟩
  · right
    refine ⟨h, ?_, errorsIs_notify _⟩
    have h1 : (n.vtbl.SetNotificationPositions n.self (es.length + 1) data (e :: es) s).2 ≠ 0 :=
      h
    simp [Notify.SetNotificationPositions, h1]

/-- Claim C10.  `SetNotificationPositions(events)` is free of out-of-range indexing exactly
when `events` is non-empty: for the empty slice evaluating `&events[0]` panics with index 0
out of range for length 0 and the device is never called; for every non-empty slice the call
returns, and what it returns is the outcome of the device entry applied to
`count = len(events)` and the address of `events[0]`. -/
theorem Notify.SetNotificationPositions_index_safety {σ : Type} (n : Notify σ)
    (events : EventSlice) (s : σ) :
    (Notify.SetNotificationPositions n events s = .error (.indexOutOfRange 0 0)
      ↔ events.elems = []) ∧
    ((∃ out, Notify.SetNotificationPositions n events s = .ok out) ↔ events.elems ≠ []) ∧
    (∀ out, Notify.SetNotificationPositions n events s = .ok out →
      out.1 = (n.vtbl.SetNotificationPositions n.self events.elems.length events.Data
        events.elems s).1 ∧
      (out.2 = none ↔
        (n.vtbl.SetNotificationPositions n.self events.elems.length events.Data
          events.elems s).2 = 0)) := by
  obtain ⟨data, elems⟩ := events
  cases elems with
  | nil => simp [Notify.SetNotificationPositions]
  | cons e es =>
    by_cases h : (n.vtbl.SetNotificationPositions n.self (es.length + 1) data (e :: es) s).2 = 0
    · simp [Notify.SetNotificationPositions, h]
    · simp [Notify.SetNotificationPositions, h]

/-! ## Unlock commits what Lock returned (C8) -/

/-- Claim C8.  When `Buffer.Lock` succeeds it returns exactly two segments, each with capacity
equal to its length, whose start addresses and lengths are the pointer-sized and 32-bit
values the device stored during that `Lock`; `Buffer.Unlock` of that value indexes
`segments[0]` and `segments[1]` without panicking and hands the device exactly those two
(address, length) pairs, primary first, then wrap. -/
theorem Buffer.Unlock_commits_Lock_segments {σ : Type} (a : WordSize) (b : Buffer σ)
    (offset numBytes : Int) (s s1 s2 : σ) (segments : List SliceHeader) (reply : LockReply)
    (hreply : b.vtbl.Lock b.self (toUintptr a offset) (toUintptr a numBytes) 0 s
      = (s1, reply))
    (hlock : Buffer.Lock a b offset numBytes s = (s1, some segments, none)) :
    ∃ primary wrap : SliceHeader,
      segments = [primary, wrap] ∧
      primary.Cap = primary.Len ∧ wrap.Cap = wrap.Len ∧
      primary.Data = reply.audioPtr1 % a.modulus ∧
      toUintptr a primary.Len = reply.audioBytes1 % 4294967296 ∧
      wrap.Data = reply.audioPtr2 % a.modulus ∧
      toUintptr a wrap.Len = reply.audioBytes2 % 4294967296 ∧
      ∃ err : Option GoError,
        Buffer.Unlock a b segments s2
          = .ok ((b.vtbl.Unlock b.self (reply.audioPtr1 % a.modulus)
                    (reply.audioBytes1 % 4294967296) (reply.audioPtr2 % a.modulus)
                    (reply.audioBytes2 % 4294967296) s2).1, err) ∧
        (err = none ↔
          (b.vtbl.Unlock b.self (reply.audioPtr1 % a.modulus)
            (reply.audioBytes1 % 4294967296) (reply.audioPtr2 % a.modulus)
            (reply.audioBytes2 % 4294967296) s2).2 = 0) := by
  have hmod := modulus_ge a
  have h0 : reply.retVal = 0 := by
    by_contra hne
    rw [Buffer.Lock_of_failure a b offset numBytes s s1 reply hreply hne] at hlock
    simp at hlock
  rw [Buffer.Lock_of_success a b offset numBytes s s1 reply hreply h0] at hlock
  simp only [Prod.mk.injEq, Option.some.injEq, true_and, and_true] at hlock
  have hb1 := toUintptr_toInt a (reply.audioBytes1 % 4294967296)
    (by have := Nat.mod_lt reply.audioBytes1 (by decide : 4294967296 > 0); omega)
  have hb2 := toUintptr_toInt a (reply.audioBytes2 % 4294967296)
    (by have := Nat.mod_lt reply.audioBytes2 (by decide : 4294967296 > 0); omega)
  subst hlock
  refine ⟨_, _, rfl, rfl, rfl, rfl, hb1, rfl, hb2, ?_⟩
  simp only [Buffer.Unlock, hb1, hb2]
  by_cases hu : (b.vtbl.Unlock b.self (reply.audioPtr1 % a.modulus)
      (reply.audioBytes1 % 4294967296) (reply.audioPtr2 % a.modulus)
      (reply.audioBytes2 % 4294967296) s2).2 = 0
  · exact ⟨none, by simp [hu], by simp [hu]⟩
  · exact ⟨some (Errorf errDirectSoundBuffer (": Unlock returned " ++ fmtHex08
      (b.vtbl.Unlock b.self (reply.audioPtr1 % a.modulus) (reply.audioBytes1 % 4294967296)
        (reply.audioPtr2 % a.modulus) (reply.audioBytes2 % 4294967296) s2).2)),
      by simp [hu], by simp [hu]⟩

/-- On the 16-byte ring, `Lock(12, 8)` returns the segments `(0x200c, 4)` and `(0x2000, 4)`
and `Unlock` hands the same two pairs back to the device. -/
theorem Buffer.Unlock_commits_Lock_segments_witness :
    Buffer.Lock .w64 (ringBuffer ring16) 12 8 zeroMem
      = (zeroMem, some [⟨0x200c, 4, 4⟩, ⟨0x2000, 4, 4⟩], none) ∧
    ∃ primary wrap : SliceHeader,
      [⟨0x200c, 4, 4⟩, ⟨0x2000, 4, 4⟩] = [primary, wrap] ∧
      primary.Cap = primary.Len ∧ wrap.Cap = wrap.Len ∧
      primary.Data = (ringLock ring16 12 8).audioPtr1 % WordSize.w64.modulus ∧
      toUintptr .w64 primary.Len = (ringLock ring16 12 8).audioBytes1 % 4294967296 ∧
      wrap.Data = (ringLock ring16 12 8).audioPtr2 % WordSize.w64.modulus ∧
      toUintptr .w64 wrap.Len = (ringLock ring16 12 8).audioBytes2 % 4294967296 ∧
      ∃ err : Option GoError,
        Buffer.Unlock .w64 (ringBuffer ring16) [⟨0x200c, 4, 4⟩, ⟨0x2000, 4, 4⟩] zeroMem
          = .ok (((ringBuffer ring16).vtbl.Unlock (ringBuffer ring16).self
                    ((ringLock ring16 12 8).audioPtr1 % WordSize.w64.modulus)
                    ((ringLock ring16 12 8).audioBytes1 % 4294967296)
                    ((ringLock ring16 12 8).audioPtr2 % WordSize.w64.modulus)
                    ((ringLock ring16 12 8).audioBytes2 % 4294967296) zeroMem).1, err) ∧
        (err = none ↔
          ((ringBuffer ring16).vtbl.Unlock (ringBuffer ring16).self
            ((ringLock ring16 12 8).audioPtr1 % WordSize.w64.modulus)
            ((ringLock ring16 12 8).audioBytes1 % 4294967296)
            ((ringLock ring16 12 8).audioPtr2 % WordSize.w64.modulus)
            ((ringLock ring16 12 8).audioBytes2 % 4294967296) zeroMem).2 = 0) :=
  ⟨rfl,
    Buffer.Unlock_commits_Lock_segments .w64 (ringBuffer ring16) 12 8 zeroMem zeroMem zeroMem
      [⟨0x200c, 4, 4⟩, ⟨0x2000, 4, 4⟩] (ringLock ring16 12 8) rfl rfl⟩

/-! ## The primary format descriptor (C5, C6) -/

theorem toUint16_cast (x : Int) : ((toUint16 x : Nat) : Int) = x % 65536 := by
  unfold toUint16
  exact Int.toNat_of_nonneg (Int.emod_nonneg x (by decide))

theorem toUint32_cast (x : Int) : ((toUint32 x : Nat) : Int) = x % 4294967296 := by
  unfold toUint32
  exact Int.toNat_of_nonneg (Int.emod_nonneg x (by decide))

/-- A nil error from `CreateSoundBufferPrimary` comes with a buffer and with the format
built from the arguments. -/
theorem DirectSound.CreateSoundBufferPrimary_success {σ : Type} (a : WordSize) (k : Consts)
    (ds : DirectSound σ) (channels samplesPerSec bitsPerSample : Int) (s s1 : σ)
    (buffer : Option (Buffer σ)) (fmt : Option WAVEFORMATEX)
    (h : DirectSound.CreateSoundBufferPrimary a k ds channels samplesPerSec bitsPerSample s
      = .ok (s1, buffer, fmt, none)) :
    buffer.isSome = true ∧
      fmt = some (primaryFormat a k channels samplesPerSec bitsPerSample) := by
  unfold DirectSound.CreateSoundBufferPrimary at h
  simp only at h
  split at h
  · simp at h
  · split at h
    · simp at h
    · split at h
      · simp at h
      · simp only [Except.ok.injEq, Prod.mk.injEq] at h
        obtain ⟨_, hb, hf, _⟩ := h
        exact ⟨by rw [← hb]; rfl, hf.symm⟩

/-- Claim C5.  When `CreateSoundBufferPrimary(channels, samplesPerSec, bitsPerSample)` returns
a nil error, the returned format has `NChannels`, `NSamplesPerSec` and `WBitsPerSample`
equal to the arguments reduced to 16, 32 and 16 bits, `NBlockAlign` equal to
`uint16(channels * bitsPerSample / 8)` computed as Go does on `int`, and `NAvgBytesPerSec`
equal to `NSamplesPerSec * NBlockAlign` modulo `2 ^ 32`.  When the product
`channels * bitsPerSample` is non-negative and fits an `int`, `NBlockAlign` is the integer
quotient of the product by 8, modulo `2 ^ 16`. -/
theorem DirectSound.CreateSoundBufferPrimary_format {σ : Type} (a : WordSize) (k : Consts)
    (ds : DirectSound σ) (channels samplesPerSec bitsPerSample : Int) (s s1 : σ)
    (buffer : Option (Buffer σ)) (fmt : Option WAVEFORMATEX)
    (h : DirectSound.CreateSoundBufferPrimary a k ds channels samplesPerSec bitsPerSample s
      = .ok (s1, buffer, fmt, none)) :
    ∃ wfx : WAVEFORMATEX, fmt = some wfx ∧
      (wfx.NChannels : Int) = channels % 65536 ∧
      (wfx.NSamplesPerSec : Int) = samplesPerSec % 4294967296 ∧
      (wfx.WBitsPerSample : Int) = bitsPerSample % 65536 ∧
      wfx.NBlockAlign = toUint16 (intQuo (intMul a channels bitsPerSample) 8) ∧
      wfx.NAvgBytesPerSec = (wfx.NSamplesPerSec * wfx.NBlockAlign) % 4294967296 ∧
      (0 ≤ channels * bitsPerSample → IsInt a (channels * bitsPerSample) →
        (wfx.NBlockAlign : Int) = channels * bitsPerSample / 8 % 65536) := by
  obtain ⟨_, hf⟩ := DirectSound.CreateSoundBufferPrimary_success a k ds channels samplesPerSec
    bitsPerSample s s1 buffer fmt h
  refine ⟨_, hf, toUint16_cast _, toUint32_cast _, toUint16_cast _, rfl, ?_, ?_⟩
  · simp only [primaryFormat, uint32Mul]
    have hlt : toUint16 (intQuo (intMul a channels bitsPerSample) 8) < 65536 := by
      have := toUint16_cast (intQuo (intMul a channels bitsPerSample) 8)
      omega
    rw [Nat.mod_eq_of_lt (by omega :
      toUint16 (intQuo (intMul a channels bitsPerSample) 8) < 4294967296)]
  · intro h0 hfit
    simp only [primaryFormat]
    rw [toUint16_cast, intMul, toInt_of_isInt a _ hfit, intQuo,
      Int.tdiv_eq_ediv h0 (by decide)]

/-- Stereo, 44100 Hz, 16 bits on a device that accepts the format: block alignment 4 and
176400 bytes per second. -/
theorem DirectSound.CreateSoundBufferPrimary_format_witness :
    (DirectSound.CreateSoundBufferPrimary .w64 sampleConsts okDirectSound 2 44100 16 ()
      = .ok ((), some okBuffer, some ⟨1, 2, 44100, 176400, 4, 16, 20⟩, none)) ∧
    ∃ wfx : WAVEFORMATEX, some (⟨1, 2, 44100, 176400, 4, 16, 20⟩ : WAVEFORMATEX) = some wfx ∧
      (wfx.NChannels : Int) = 2 % 65536 ∧
      (wfx.NSamplesPerSec : Int) = 44100 % 4294967296 ∧
      (wfx.WBitsPerSample : Int) = 16 % 65536 ∧
      wfx.NBlockAlign = toUint16 (intQuo (intMul .w64 2 16) 8) ∧
      wfx.NAvgBytesPerSec = (wfx.NSamplesPerSec * wfx.NBlockAlign) % 4294967296 ∧
      ((0 : Int) ≤ 2 * 16 → IsInt .w64 (2 * 16) →
        (wfx.NBlockAlign : Int) = 2 * 16 / 8 % 65536) :=
  ⟨rfl,
    DirectSound.CreateSoundBufferPrimary_format .w64 sampleConsts okDirectSound 2 44100 16 ()
      () (some okBuffer) (some ⟨1, 2, 44100, 176400, 4, 16, 20⟩) rfl⟩

/-- Claim C6, as stated, fails.  One channel of 4 bits gives `1 * 4 / 8 = 0`, and zero
channels give `0`: on a device that accepts the format, `CreateSoundBufferPrimary` succeeds
and returns a format whose `NBlockAlign` is 0. -/
theorem DirectSound.CreateSoundBufferPrimary_zero_blockAlign :
    (DirectSound.CreateSoundBufferPrimary .w64 sampleConsts okDirectSound 1 44100 4 ()
      = .ok ((), some okBuffer, some ⟨1, 1, 44100, 0, 0, 4, 20⟩, none)) ∧
    (DirectSound.CreateSoundBufferPrimary .w64 sampleConsts okDirectSound 0 44100 16 ()
      = .ok ((), some okBuffer, some ⟨1, 0, 44100, 0, 0, 16, 20⟩, none)) ∧
    (⟨1, 1, 44100, 0, 0, 4, 20⟩ : WAVEFORMATEX).NBlockAlign = 0 ∧
    (⟨1, 0, 44100, 0, 0, 16, 20⟩ : WAVEFORMATEX).NBlockAlign = 0 :=
  ⟨rfl, rfl, rfl, rfl⟩

/-- Claim C6, amended.  When `CreateSoundBufferPrimary` returns a nil error and
`8 ≤ channels * bitsPerSample < 524288`, the returned format has `NBlockAlign > 0`. -/
theorem DirectSound.CreateSoundBufferPrimary_blockAlign_pos {σ : Type} (a : WordSize)
    (k : Consts) (ds : DirectSound σ) (channels samplesPerSec bitsPerSample : Int) (s s1 : σ)
    (buffer : Option (Buffer σ)) (fmt : Option WAVEFORMATEX)
    (h : DirectSound.CreateSoundBufferPrimary a k ds channels samplesPerSec bitsPerSample s
      = .ok (s1, buffer, fmt, none))
    (h8 : 8 ≤ channels * bitsPerSample) (hlt : channels * bitsPerSample < 524288) :
    ∃ wfx : WAVEFORMATEX, fmt = some wfx ∧ 0 < wfx.NBlockAlign := by
  obtain ⟨_, hf⟩ := DirectSound.CreateSoundBufferPrimary_success a k ds channels samplesPerSec
    bitsPerSample s s1 buffer fmt h
  refine ⟨_, hf, ?_⟩
  have hfit : IsInt a (channels * bitsPerSample) := by
    unfold IsInt
    cases a <;> simp [WordSize.modulus, WordSize.bits] <;> omega
  have hcast : ((primaryFormat a k channels samplesPerSec bitsPerSample).NBlockAlign : Int)
      = channels * bitsPerSample / 8 % 65536 := by
    simp only [primaryFormat]
    rw [toUint16_cast, intMul, toInt_of_isInt a _ hfit, intQuo,
      Int.tdiv_eq_ediv (by omega) (by decide)]
  omega

/-- Stereo, 44100 Hz, 16 bits: the product is 32 and the block alignment is positive. -/
theorem DirectSound.CreateSoundBufferPrimary_blockAlign_pos_witness :
    ((8 : Int) ≤ 2 * 16 ∧ (2 : Int) * 16 < 524288) ∧
    ∃ wfx : WAVEFORMATEX, some (⟨1, 2, 44100, 176400, 4, 16, 20⟩ : WAVEFORMATEX) = some wfx ∧
      0 < wfx.NBlockAlign :=
  ⟨by decide,
    DirectSound.CreateSoundBufferPrimary_blockAlign_pos .w64 sampleConsts okDirectSound 2 44100
      16 () () (some okBuffer) (some ⟨1, 2, 44100, 176400, 4, 16, 20⟩) rfl (by decide)
      (by decide)⟩

/-! ## Free space between the cursors (C4) -/

/-- Claim C4, as stated, fails.  With `capacityBytes = 4096` and
`lastCommitted = writeCursor = 0` the modular distance is 0: it lies in `[0, 4096)` and
therefore is not 4096. -/
theorem FreeBytes_equal_cursors_not_capacity :
    FreeBytes 4096 0 0 = 0 ∧ FreeBytes 4096 0 0 < 4096 ∧ FreeBytes 4096 0 0 ≠ 4096 := by
  decide

/-- Claim C4, amended.  For every capacity `C > 0` and every `lastCommitted` and `writeCursor`
in `[0, C)`, `FreeBytes` lies in `[0, C)`, equals `C - lastCommitted + writeCursor` when
`writeCursor < lastCommitted`, and equals 0 when `lastCommitted = writeCursor`; its value is
the distance modulo `C` from `lastCommitted` to `writeCursor`. -/
theorem FreeBytes_range (capacityBytes lastCommitted writeCursor : Nat)
    (_hC : 0 < capacityBytes) (hl : lastCommitted < capacityBytes)
    (hw : writeCursor < capacityBytes) :
    FreeBytes capacityBytes lastCommitted writeCursor < capacityBytes ∧
    (writeCursor < lastCommitted →
      FreeBytes capacityBytes lastCommitted writeCursor
        = capacityBytes - lastCommitted + writeCursor) ∧
    (lastCommitted = writeCursor → FreeBytes capacityBytes lastCommitted writeCursor = 0) ∧
    (lastCommitted + FreeBytes capacityBytes lastCommitted writeCursor) % capacityBytes
      = writeCursor := by
  unfold FreeBytes
  refine ⟨?_, ?_, ?_, ?_⟩
  · split <;> omega
  · intro h
    rw [if_pos h]
  · intro h
    rw [if_neg (by omega)]
    omega
  · split
    · rw [show lastCommitted + (capacityBytes - lastCommitted + writeCursor)
          = writeCursor + capacityBytes by omega,
        Nat.add_mod_right, Nat.mod_eq_of_lt hw]
    · rw [show lastCommitted + (writeCursor - lastCommitted) = writeCursor by omega,
        Nat.mod_eq_of_lt hw]

/-- The two scenarios of the spec on a 4096-byte ring: from 0 to 1000 the distance is
1000, from 4000 to 200 it is 296. -/
theorem FreeBytes_range_witness :
    FreeBytes 4096 0 1000 = 1000 ∧ FreeBytes 4096 4000 200 = 296 ∧
    (FreeBytes 4096 4000 200 < 4096 ∧
      (200 < 4000 → FreeBytes 4096 4000 200 = 4096 - 4000 + 200) ∧
      (4000 = 200 → FreeBytes 4096 4000 200 = 0) ∧
      (4000 + FreeBytes 4096 4000 200) % 4096 = 200) :=
  ⟨by decide, by decide,
    FreeBytes_range 4096 4000 200 (by decide) (by decide) (by decide)⟩

/-! ## Every error wraps `ErrDirectSound` (C9) -/

/-- The status-checked device calls of `CreateSoundBufferPrimary`: the error is non-nil
exactly when `CreateSoundBuffer` or, after it succeeded, `SetFormat` reported a non-zero
status, and it then wraps `ErrDirectSound`; the call returns unless the device reported
success without storing a buffer. -/
theorem DirectSound.CreateSoundBufferPrimary_errors {σ : Type} (a : WordSize) (k : Consts)
    (ds : DirectSound σ) (channels samplesPerSec bitsPerSample : Int) (s : σ) :
    ((∃ out, DirectSound.CreateSoundBufferPrimary a k ds channels samplesPerSec bitsPerSample s
        = .ok out) ↔
      ¬ ((ds.vtbl.CreateSoundBuffer ds.self (primaryBufferDesc k) s).2.1 = 0 ∧
        (ds.vtbl.CreateSoundBuffer ds.self (primaryBufferDesc k) s).2.2 = none)) ∧
    ∀ out, DirectSound.CreateSoundBufferPrimary a k ds channels samplesPerSec bitsPerSample s
        = .ok out →
      (∀ e : GoError, out.2.2.2 = some e → errorsIs e ErrDirectSound = true) ∧
      (out.2.2.2 ≠ none ↔
        ((ds.vtbl.CreateSoundBuffer ds.self (primaryBufferDesc k) s).2.1 ≠ 0 ∨
          ∃ buffer : Buffer σ,
            (ds.vtbl.CreateSoundBuffer ds.self (primaryBufferDesc k) s).2.2 = some buffer ∧
            (buffer.vtbl.SetFormat buffer.self
              (primaryFormat a k channels samplesPerSec bitsPerSample)
              (ds.vtbl.CreateSoundBuffer ds.self (primaryBufferDesc k) s).1).2 ≠ 0)) := by
  unfold DirectSound.CreateSoundBufferPrimary
  simp only
  by_cases h0 : (ds.vtbl.CreateSoundBuffer ds.self (primaryBufferDesc k) s).2.1 = 0
  · cases hb : (ds.vtbl.CreateSoundBuffer ds.self (primaryBufferDesc k) s).2.2 with
    | none => simp [h0]
    | some buffer =>
      by_cases hf : (buffer.vtbl.SetFormat buffer.self
          (primaryFormat a k channels samplesPerSec bitsPerSample)
          (ds.vtbl.CreateSoundBuffer ds.self (primaryBufferDesc k) s).1).2 = 0
      · simp [h0, Buffer.setFormat, hf]
      · simp [h0, Buffer.setFormat, hf, errorsIs_buffer]
  · simp [h0, errorsIs_device]

/-- The status-checked device calls of `NewDSound`: the error is non-nil exactly when
`DirectSoundCreate8` or, after it succeeded, `SetCooperativeLevel` reported a non-zero
status, and it then wraps `ErrDirectSound`; the call returns unless the host reported
success without storing an object. -/
theorem NewDSound_errors {σ : Type} (k : Consts) (host : Host σ)
    (preferredDeviceName : String) (s : σ) :
    ((∃ out, NewDSound k host preferredDeviceName s = .ok out) ↔
      ¬ ((host.DirectSoundCreate8 none s).2.1 = 0 ∧
        (host.DirectSoundCreate8 none s).2.2 = none)) ∧
    ∀ out, NewDSound k host preferredDeviceName s = .ok out →
      (∀ e : GoError, out.2.2 = some e → errorsIs e ErrDirectSound = true) ∧
      (out.2.2 ≠ none ↔
        ((host.DirectSoundCreate8 none s).2.1 ≠ 0 ∨
          ∃ obj : DirectSound σ,
            (host.DirectSoundCreate8 none s).2.2 = some obj ∧
            (obj.vtbl.SetCooperativeLevel obj.self
              (host.GetDesktopWindow (host.DirectSoundCreate8 none s).1) k.DSSCL_PRIORITY
              (host.DirectSoundCreate8 none s).1).2 ≠ 0)) := by
  unfold NewDSound createDevice
  simp only [ite_self]
  by_cases h0 : (host.DirectSoundCreate8 none s).2.1 = 0
  · cases hb : (host.DirectSoundCreate8 none s).2.2 with
    | none => simp [h0]
    | some obj =>
      by_cases hf : (obj.vtbl.SetCooperativeLevel obj.self
          (host.GetDesktopWindow (host.DirectSoundCreate8 none s).1) k.DSSCL_PRIORITY
          (host.DirectSoundCreate8 none s).1).2 = 0
      · simp [h0, DirectSound.setCooperativeLevel, hf]
      · simp [h0, DirectSound.setCooperativeLevel, hf, errorsIs_device]
  · simp [h0, errorsIs_device]

theorem reportsStatus_pair {σ : Type} (r : σ × Nat) (err : GoError)
    (h : errorsIs err ErrDirectSound = true) :
    ReportsStatus (if (r.2 != 0) = true then (r.1, some err) else (r.1, none)).2 r.2 := by
  unfold ReportsStatus
  by_cases h0 : r.2 = 0
  · simp [h0]
  · simp [h0, h]

/-- Claim C9.  Every operation of `Buffer`, `Notify` and `DirectSound` returns a non-nil error
exactly when a device call it made reported a non-zero status, and every error it returns has
`ErrDirectSound` in its wrap chain.  The operations with one device call (`Lock`, `Unlock`,
`Play`, `GetStatus`, `GetCurrentPosition`, `GetNotify`, `AddRef`, `Release`,
`SetNotificationPositions`, `CreateSoundBufferSecondary`, `Close`) satisfy `ReportsStatus`
for the status of that call; `CreateSoundBufferPrimary` and `NewDSound` fail exactly when
their first call or, after it succeeded, their second call reported a non-zero status.  On
error `Lock` returns nil segments and `GetCurrentPosition` returns `(0, 0)`. -/
theorem error_contract {σ : Type} (a : WordSize) (k : Consts) (b : Buffer σ) (n : Notify σ)
    (ds : DirectSound σ) (host : Host σ) (s : σ) (offset numBytes : Int)
    (seg0 seg1 : SliceHeader) (rest : List SliceHeader) (looping : Bool) (data : Nat)
    (ev : PositionNotify) (evs : List PositionNotify)
    (channels samplesPerSec bitsPerSample bufferSize : Int) (wfx : Option WAVEFORMATEX)
    (preferredDeviceName : String) :
    -- Buffer.Lock
    (ReportsStatus (Buffer.Lock a b offset numBytes s).2.2
        (b.vtbl.Lock b.self (toUintptr a offset) (toUintptr a numBytes) 0 s).2.retVal ∧
      ((Buffer.Lock a b offset numBytes s).2.2 ≠ none →
        (Buffer.Lock a b offset numBytes s).2.1 = none)) ∧
    -- Buffer.Unlock
    (∃ out, Buffer.Unlock a b (seg0 :: seg1 :: rest) s = .ok out ∧
      ReportsStatus out.2
        (b.vtbl.Unlock b.self seg0.Data (toUintptr a seg0.Len) seg1.Data
          (toUintptr a seg1.Len) s).2) ∧
    -- Buffer.Play, Buffer.GetStatus
    ReportsStatus (Buffer.Play k b looping s).2
      (b.vtbl.Play b.self 0 0 (playFlags k looping) s).2 ∧
    ReportsStatus (Buffer.GetStatus b s).2.2 (b.vtbl.GetStatus b.self s).2.1 ∧
    -- Buffer.GetCurrentPosition
    (ReportsStatus (Buffer.GetCurrentPosition b s).2.2.2
        (b.vtbl.GetCurrentPosition b.self s).2.1 ∧
      ((Buffer.GetCurrentPosition b s).2.2.2 ≠ none →
        (Buffer.GetCurrentPosition b s).2.1 = 0 ∧
        (Buffer.GetCurrentPosition b s).2.2.1 = 0)) ∧
    -- Buffer.GetNotify, Buffer.AddRef, Buffer.Release
    ReportsStatus (Buffer.GetNotify b s).2.2
      (b.vtbl.QueryInterface b.self guidIDirectSoundNotify s).2.1 ∧
    ReportsStatus (Buffer.AddRef b s).2 (b.vtbl.AddRef b.self s).2 ∧
    ReportsStatus (Buffer.Release b s).2 (b.vtbl.Release b.self s).2 ∧
    -- Notify.AddRef, Notify.Release, Notify.SetNotificationPositions
    ReportsStatus (Notify.AddRef n s).2 (n.vtbl.AddRef n.self s).2 ∧
    ReportsStatus (Notify.Release n s).2 (n.vtbl.Release n.self s).2 ∧
    (∃ out, Notify.SetNotificationPositions n ⟨data, ev :: evs⟩ s = .ok out ∧
      ReportsStatus out.2
        (n.vtbl.SetNotificationPositions n.self (ev :: evs).length data (ev :: evs) s).2) ∧
    -- DirectSound.CreateSoundBufferSecondary, DirectSound.Close
    ReportsStatus (DirectSound.CreateSoundBufferSecondary k ds wfx bufferSize s).2.2
      (ds.vtbl.CreateSoundBuffer ds.self (secondaryBufferDesc k wfx bufferSize) s).2.1 ∧
    ReportsStatus (DirectSound.Close ds s).2 (ds.vtbl.Release ds.self s).2 ∧
    -- DirectSound.CreateSoundBufferPrimary
    (((∃ out, DirectSound.CreateSoundBufferPrimary a k ds channels samplesPerSec
          bitsPerSample s = .ok out) ↔
        ¬ ((ds.vtbl.CreateSoundBuffer ds.self (primaryBufferDesc k) s).2.1 = 0 ∧
          (ds.vtbl.CreateSoundBuffer ds.self (primaryBufferDesc k) s).2.2 = none)) ∧
      ∀ out, DirectSound.CreateSoundBufferPrimary a k ds channels samplesPerSec
          bitsPerSample s = .ok out →
        (∀ e : GoError, out.2.2.2 = some e → errorsIs e ErrDirectSound = true) ∧
        (out.2.2.2 ≠ none ↔
          ((ds.vtbl.CreateSoundBuffer ds.self (primaryBufferDesc k) s).2.1 ≠ 0 ∨
            ∃ buffer : Buffer σ,
              (ds.vtbl.CreateSoundBuffer ds.self (primaryBufferDesc k) s).2.2 = some buffer ∧
              (buffer.vtbl.SetFormat buffer.self
                (primaryFormat a k channels samplesPerSec bitsPerSample)
                (ds.vtbl.CreateSoundBuffer ds.self (primaryBufferDesc k) s).1).2 ≠ 0))) ∧
    -- NewDSound
    (((∃ out, NewDSound k host preferredDeviceName s = .ok out) ↔
        ¬ ((host.DirectSoundCreate8 none s).2.1 = 0 ∧
          (host.DirectSoundCreate8 none s).2.2 = none)) ∧
      ∀ out, NewDSound k host preferredDeviceName s = .ok out →
        (∀ e : GoError, out.2.2 = some e → errorsIs e ErrDirectSound = true) ∧
        (out.2.2 ≠ none ↔
          ((host.DirectSoundCreate8 none s).2.1 ≠ 0 ∨
            ∃ obj : DirectSound σ,
              (host.DirectSoundCreate8 none s).2.2 = some obj ∧
              (obj.vtbl.SetCooperativeLevel obj.self
                (host.GetDesktopWindow (host.DirectSoundCreate8 none s).1) k.DSSCL_PRIORITY
                (host.DirectSoundCreate8 none s).1).2 ≠ 0))) := by
  refine ⟨⟨?_, ?_⟩, ?_, ?_, ?_, ⟨?_, ?_⟩, ?_, ?_, ?_, ?_, ?_, ?_, ?_, ?_,
    DirectSound.CreateSoundBufferPrimary_errors a k ds channels samplesPerSec bitsPerSample s,
    NewDSound_errors k host preferredDeviceName s⟩
  · by_cases h0 :
      (b.vtbl.Lock b.self (toUintptr a offset) (toUintptr a numBytes) 0 s).2.retVal = 0
    · simp [Buffer.Lock, h0, ReportsStatus]
    · simp [Buffer.Lock, h0, ReportsStatus, errorsIs_buffer]
  · by_cases h0 :
      (b.vtbl.Lock b.self (toUintptr a offset) (toUintptr a numBytes) 0 s).2.retVal = 0
    · simp [Buffer.Lock, h0]
    · simp [Buffer.Lock, h0]
  · by_cases h0 : (b.vtbl.Unlock b.self seg0.Data (toUintptr a seg0.Len) seg1.Data
        (toUintptr a seg1.Len) s).2 = 0
    · simp [Buffer.Unlock, h0, ReportsStatus]
    · simp [Buffer.Unlock, h0, ReportsStatus, errorsIs_buffer]
  · exact reportsStatus_pair _ _ (errorsIs_buffer _)
  · by_cases h0 : (b.vtbl.GetStatus b.self s).2.1 = 0
    · simp [Buffer.GetStatus, h0, ReportsStatus]
    · simp [Buffer.GetStatus, h0, ReportsStatus, errorsIs_buffer]
  · by_cases h0 : (b.vtbl.GetCurrentPosition b.self s).2.1 = 0
    · simp [Buffer.GetCurrentPosition, h0, ReportsStatus]
    · simp [Buffer.GetCurrentPosition, h0, ReportsStatus, errorsIs_buffer]
  · by_cases h0 : (b.vtbl.GetCurrentPosition b.self s).2.1 = 0
    · simp [Buffer.GetCurrentPosition, h0]
    · simp [Buffer.GetCurrentPosition, h0]
  · by_cases h0 : (b.vtbl.QueryInterface b.self guidIDirectSoundNotify s).2.1 = 0
    · simp [Buffer.GetNotify, h0, ReportsStatus]
    · simp [Buffer.GetNotify, h0, ReportsStatus, errorsIs_buffer]
  · exact reportsStatus_pair _ _ (errorsIs_buffer _)
  · exact reportsStatus_pair _ _ (errorsIs_buffer _)
  · exact reportsStatus_pair _ _ (errorsIs_notify _)
  · exact reportsStatus_pair _ _ (errorsIs_notify _)
  · have hlen : (ev :: evs).length = evs.length + 1 := rfl
    by_cases h0 :
      (n.vtbl.SetNotificationPositions n.self (evs.length + 1) data (ev :: evs) s).2 = 0
    · simp [Notify.SetNotificationPositions, h0, ReportsStatus]
    · simp [Notify.SetNotificationPositions, h0, ReportsStatus, errorsIs_notify]
  · by_cases h0 :
      (ds.vtbl.CreateSoundBuffer ds.self (secondaryBufferDesc k wfx bufferSize) s).2.1 = 0
    · simp [DirectSound.CreateSoundBufferSecondary, h0, ReportsStatus]
    · simp [DirectSound.CreateSoundBufferSecondary, h0, ReportsStatus, errorsIs_device]
  · exact reportsStatus_pair _ _ (errorsIs_device _)

end GoDirectSound
